import Mathlib

/-!
Shallow embedding of the JEFFCRYPTO bot's transaction builder and
confirmation engine (`solana_utils.py`) together with the metadata
validators of the bot script variants.  Pure Python logic is translated
into executable Lean definitions; external SDK behaviour (message
compilation, instruction payload encoding, RPC transport) is modelled by
explicit parameters or opaque byte inputs.  Logging calls of the source
are side-effect free and are not modelled.
-/

namespace JeffCrypto

/-- A ledger public key, modelled by its base58 string form. -/
abbrev PubKey := String

/-- `MAX_TRANSACTION_SIZE` of `solana_utils.py`: the ledger's hard
transaction size ceiling in bytes. -/
def MAX_TRANSACTION_SIZE : Nat := 1232

/-- `PHANTOM_DEEP_LINK_MAX_SIZE` of `solana_utils.py`: the wallet's URI
length ceiling in characters. -/
def PHANTOM_DEEP_LINK_MAX_SIZE : Nat := 2000

/-- `DISABLE_SELLING_INSTRUCTION_DISCRIMINATOR` of `solana_utils.py`. -/
def DISABLE_SELLING_INSTRUCTION_DISCRIMINATOR : Nat := 0

/-- The system program id (`SYS_PROGRAM_ID` import of `solana_utils.py`). -/
def SYS_PROGRAM_ID : PubKey := "11111111111111111111111111111111"

/-- The SPL token program id (`TOKEN_PROGRAM_ID` import). -/
def TOKEN_PROGRAM_ID : PubKey := "TokenkegQfeZvrBGkTvxNNtRbJcfbMNEqVR2R1VTiFw"

/-- The associated-token program id used by the
`create_associated_token_account` SDK builder. -/
def ASSOCIATED_TOKEN_PROGRAM_ID : PubKey := "ATokenGPvbdGVxr1b2hvZbsiqW5xWH25efTNsLJA8knL"

/-- The rent sysvar (`SYSVAR_RENT_PUBKEY` import). -/
def SYSVAR_RENT_PUBKEY : PubKey := "SysvarRent111111111111111111111111111111111"

/-- An account reference of a high-level instruction (`AccountMeta`). -/
structure AccountMeta where
  pubkey : PubKey
  is_signer : Bool
  is_writable : Bool
deriving DecidableEq, Repr

/-- A high-level instruction as the repository builds it: program id,
ordered account references, opaque binary payload. -/
structure Instruction where
  program_id : PubKey
  keys : List AccountMeta
  data : List Nat
deriving DecidableEq, Repr

/-- A compiled instruction as the security validator reads it from
`transaction.message.instructions`: indices into the message's key table. -/
structure CompiledInstruction where
  program_id_index : Nat
  accounts : List Nat
  data : List Nat
deriving DecidableEq, Repr

/-- The compiled message (`transaction.message`). -/
structure Message where
  account_keys : List PubKey
  instructions : List CompiledInstruction
deriving DecidableEq, Repr

/-- An unsigned transaction.  `serialized` records the byte string that
`transaction.serialize()` returns; serialization itself is SDK code, so
the bytes are supplied by the environment. -/
structure Transaction where
  message : Message
  serialized : List Nat
deriving DecidableEq, Repr

/-- Key table of the SDK's message compilation for a transaction built
from `fee_payer` and `instrs`: every referenced key and program id,
first occurrence kept.  The SDK orders keys differently, but the
validator only ever resolves indices back to keys, which this model
preserves. -/
def messageKeys (fee_payer : Option PubKey) (instrs : List Instruction) : List PubKey :=
  (fee_payer.toList ++
    instrs.flatMap (fun i => i.keys.map (fun k => k.pubkey)) ++
    instrs.map (fun i => i.program_id)).dedup

/-- Compile one instruction against a key table, replacing keys by their
indices as the SDK does. -/
def compileInstruction (keys : List PubKey) (i : Instruction) : CompiledInstruction :=
  { program_id_index := keys.indexOf i.program_id,
    accounts := i.keys.map (fun k => keys.indexOf k.pubkey),
    data := i.data }

/-- Model of `Transaction()` + `.add(...)` + SDK message compilation,
with the serialized bytes supplied by the environment. -/
def compileTransaction (fee_payer : Option PubKey) (instrs : List Instruction)
    (serialized : List Nat) : Transaction :=
  let keys := messageKeys fee_payer instrs
  { message := { account_keys := keys, instructions := instrs.map (compileInstruction keys) },
    serialized := serialized }

/-- The standard base64 alphabet used by Python's `base64.b64encode`. -/
def b64Alphabet : List Char :=
  "ABCDEFGHIJKLMNOPQRSTUVWXYZabcdefghijklmnopqrstuvwxyz0123456789+/".toList

/-- Character of the base64 alphabet at index `n`. -/
def b64Char (n : Nat) : Char := b64Alphabet.getD n 'A'

/-- Python's `base64.b64encode` on a byte list (each byte `< 256`),
three input bytes per four output characters, padded with `=`. -/
def b64encode : List Nat → List Char
  | [] => []
  | [b1] => [b64Char (b1 / 4), b64Char (b1 % 4 * 16), '=', '=']
  | [b1, b2] => [b64Char (b1 / 4), b64Char (b1 % 4 * 16 + b2 / 16), b64Char (b2 % 16 * 4), '=']
  | b1 :: b2 :: b3 :: rest =>
      b64Char (b1 / 4) :: b64Char (b1 % 4 * 16 + b2 / 16) ::
      b64Char (b2 % 16 * 4 + b3 / 64) :: b64Char (b3 % 64) :: b64encode rest

/-- `base64.b64encode(...).decode("utf-8")`. -/
def b64encodeStr (bs : List Nat) : String := String.mk (b64encode bs)

/-- Per-instruction body of the validation loop of
`_validate_transaction_security`: resolve the program id, check it
against the allow-list, and reject instructions that let a non-system
program reference the system program's account.  An out-of-range index
raises in Python and is caught by the surrounding handler, which
rejects. -/
def validate_instruction_ok (wl : List PubKey) (keys : List PubKey)
    (ins : CompiledInstruction) : Bool :=
  match keys[ins.program_id_index]? with
  | none => false
  | some program_id =>
    decide (program_id ∈ wl) &&
    ins.accounts.all (fun ai =>
      match keys[ai]? with
      | none => false
      | some account_key =>
        !(decide (account_key = SYS_PROGRAM_ID ∧ program_id ≠ SYS_PROGRAM_ID)))

/-- `_validate_transaction_security`: nonempty instruction list, program
allow-list and suspicious-account checks, then serialized-size ceiling. -/
def validate_transaction_security (wl : List PubKey) (tx : Transaction) : Bool :=
  if tx.message.instructions.isEmpty then false
  else
    tx.message.instructions.all (validate_instruction_ok wl tx.message.account_keys) &&
    decide (tx.serialized.length ≤ MAX_TRANSACTION_SIZE)

/-- `_generate_phantom_deep_link` before its exception handler: the two
`raise ValueError` sites become `Except.error`. -/
def generate_phantom_deep_link_ex (tx : Transaction) : Except String String :=
  if tx.serialized.isEmpty then Except.error "Transaction serialization failed"
  else
    let base64_txn := b64encodeStr tx.serialized
    if base64_txn.length > PHANTOM_DEEP_LINK_MAX_SIZE then
      Except.error "Transaction too large for Phantom Deep Link"
    else Except.ok ("https://phantom.app/ul/v1/?tx=" ++ base64_txn ++ "&type=transaction")

/-- `_generate_phantom_deep_link`: the `except` handler maps any raised
error to `None`. -/
def generate_phantom_deep_link (tx : Transaction) : Option String :=
  match generate_phantom_deep_link_ex tx with
  | Except.ok s => some s
  | Except.error _ => none

/-- Attempt loop of `_generate_phantom_deep_link_with_retry`, with the
remaining attempt count as fuel.  The second component counts how many
times `_generate_phantom_deep_link` is invoked; a validation failure
skips the encoder (`continue`) and a `None` from the encoder falls
through to the next attempt. -/
def deep_link_retry_go (wl : List PubKey) (tx : Transaction) : Nat → Option String × Nat
  | 0 => (none, 0)
  | rem + 1 =>
    if validate_transaction_security wl tx then
      match generate_phantom_deep_link tx with
      | some dl => (some dl, 1)
      | none =>
        let r := deep_link_retry_go wl tx rem
        (r.1, r.2 + 1)
    else deep_link_retry_go wl tx rem

/-- `_generate_phantom_deep_link_with_retry`, instrumented with the
number of encoder invocations. -/
def generate_deep_link_with_retry (wl : List PubKey) (max_retries : Nat)
    (tx : Transaction) : Option String × Nat :=
  deep_link_retry_go wl tx max_retries

/-- A `(requests, interval)` pair of `USER_RATE_LIMITS` / `DEFAULT_RATE_LIMIT`
(supplied by `config.py`).  Time is modelled in whole seconds. -/
structure RateConfig where
  requests : Nat
  interval : Int
deriving DecidableEq, Repr

/-- The `RateLimit` dataclass (the `user_id` field is the map key and is
kept outside the record). -/
structure RateLimit where
  requests : Nat
  interval : Int
  timestamps : List Int
deriving DecidableEq, Repr

/-- Core of `check_rate_limit` on one user's entry: prune timestamps
outside the window, then either reject with the remaining wait or admit
and record `now`.  `none` models the uncaught `IndexError` Python raises
reading `timestamps[0]` when the pruned list is empty yet the request
limit is `0`. -/
def check_rate_limit_core (now : Int) (rl : RateLimit) :
    Option ((Bool × Option Int) × RateLimit) :=
  let kept := rl.timestamps.filter (fun ts => decide (now - ts ≤ rl.interval))
  if rl.requests ≤ kept.length then
    match kept with
    | [] => none
    | oldest :: _ =>
      some ((false, some (rl.interval - (now - oldest))),
            { rl with timestamps := kept })
  else some ((true, none), { rl with timestamps := kept ++ [now] })

/-- Python dict assignment `self.user_rate_limits[user_id] = rl` on an
association-list model of the map. -/
def setRateLimit : List (PubKey × RateLimit) → PubKey → RateLimit → List (PubKey × RateLimit)
  | [], u, rl => [(u, rl)]
  | (k, v) :: rest, u, rl =>
    if k = u then (u, rl) :: rest else (k, v) :: setRateLimit rest u rl

/-- `check_rate_limit(user_id)`: look the user up, allocating a fresh
window from the per-user or default config on first use, then run the
sliding-window check and store the updated entry. -/
def check_rate_limit (userCfg : PubKey → Option RateConfig) (defCfg : RateConfig)
    (mp : List (PubKey × RateLimit)) (now : Int) (user : PubKey) :
    Option ((Bool × Option Int) × List (PubKey × RateLimit)) :=
  let rl := match mp.lookup user with
    | some r => r
    | none =>
      let c := (userCfg user).getD defCfg
      { requests := c.requests, interval := c.interval, timestamps := [] }
  match check_rate_limit_core now rl with
  | none => none
  | some (res, rl2) => some (res, setRateLimit mp user rl2)

/-- The user-facing rate-limit message
`f"Rate limit exceeded. Please wait {remaining} seconds"`. -/
def rate_limit_message (remaining : Int) : String :=
  "Rate limit exceeded. Please wait " ++ toString remaining ++ " seconds"

/-- Observable actions of an operation, in order.  `rpcGetBalance` is the
`get_balance` RPC query; no code path of the module ever performs it. -/
inductive Event where
  | rateCheck (user : PubKey)
  | rpcRentExempt
  | rpcGetBalance
  | rpcGetTransaction (attempt : Nat)
  | httpPost (attempt : Nat)
  | encode
deriving DecidableEq, Repr

/-- SDK builder `create_account(CreateAccountParams(...))`; the binary
payload (lamports, space) is SDK-encoded and modelled as opaque. -/
def create_account_ix (from_pubkey new_account_pubkey : PubKey) (lamports : Int)
    (space : Nat) (program_id : PubKey) : Instruction :=
  { program_id := SYS_PROGRAM_ID,
    keys := [⟨from_pubkey, true, true⟩, ⟨new_account_pubkey, true, true⟩],
    data := [] }

/-- SDK builder `create_mint(...)`; payload opaque. -/
def create_mint_ix (payer mint_authority freeze_authority : PubKey) (decimals : Int)
    (program_id mint : PubKey) : Instruction :=
  { program_id := program_id,
    keys := [⟨payer, true, true⟩, ⟨mint, false, true⟩],
    data := [] }

/-- SDK builder `create_associated_token_account(...)`; payload opaque. -/
def create_associated_token_account_ix (payer owner mint : PubKey) : Instruction :=
  { program_id := ASSOCIATED_TOKEN_PROGRAM_ID,
    keys := [⟨payer, true, true⟩, ⟨owner, false, false⟩, ⟨mint, false, false⟩],
    data := [] }

/-- `Token.get_associated_token_address`: a deterministic derivation,
modelled as an injective string construction. -/
def get_associated_token_address (owner mint : PubKey) : PubKey :=
  "ata:" ++ owner ++ ":" ++ mint

/-- SDK builder `mint_to(...)`; payload opaque. -/
def mint_to_ix (mint dest : PubKey) (amount : Int) (mint_authority : PubKey) : Instruction :=
  { program_id := TOKEN_PROGRAM_ID,
    keys := [⟨mint, false, true⟩, ⟨dest, false, true⟩, ⟨mint_authority, true, false⟩],
    data := [] }

/-- The two authority kinds the module revokes. -/
inductive AuthorityType where
  | mintTokens
  | freezeAccount
deriving DecidableEq, Repr

/-- SDK builder `set_authority(...)`; payload opaque. -/
def set_authority_ix (account current_authority : PubKey) (authority_type : AuthorityType)
    (new_authority : Option PubKey) (program_id : PubKey) : Instruction :=
  { program_id := program_id,
    keys := [⟨account, false, true⟩, ⟨current_authority, true, false⟩],
    data := [] }

/-- Little-endian fixed-width byte encoding, Python's
`v.to_bytes(n, byteorder='little')` for in-range `v`. -/
def toLEBytes : Nat → Nat → List Nat
  | 0, _ => []
  | n + 1, v => v % 256 :: toLEBytes n (v / 256)

/-- `_serialize_disable_selling_data`: the 1-byte discriminator followed
by the day count as a 4-byte little-endian integer. -/
def serialize_disable_selling_data (days : Nat) : List Nat :=
  DISABLE_SELLING_INSTRUCTION_DISCRIMINATOR :: toLEBytes 4 days

/-- The custom smart-contract instruction `disable_selling` builds
(lines 230-238 of `solana_utils.py`).  `days` is validated to lie in
1..7 before this runs, so `days.toNat` is faithful. -/
def disable_selling_instruction (smart_contract_pid mint wallet : PubKey)
    (days : Int) : Instruction :=
  { program_id := smart_contract_pid,
    keys := [⟨mint, false, true⟩, ⟨wallet, true, false⟩, ⟨SYSVAR_RENT_PUBKEY, false, false⟩],
    data := serialize_disable_selling_data days.toNat }

/-- `create_and_send_transaction`.  Inputs beyond the Python arguments
model the environment: the rate-limit configuration and map, the clock,
`MAX_RETRIES`, the program allow-list, the rent-exemption RPC outcome
(`Except.error` models that awaited call raising, the one I/O point of
the `try` block: the surrounding handler then returns the
`"Transaction failed: ..."` pair of lines 198-200), the payer's balance
(present in the ledger but never queried by this code), the freshly
generated mint keypair's public key, and the SDK serializer.  The
result carries the Python return pair, the updated rate map, and the
event trace; the outer `none` models an uncaught exception from the
rate gate. -/
def create_and_send_transaction (userCfg : PubKey → Option RateConfig)
    (defCfg : RateConfig) (mp : List (PubKey × RateLimit)) (now : Int)
    (max_retries : Nat) (wl : List PubKey)
    (rent_exempt : Except String Int) (payer_balance : Int)
    (meta_decimals meta_supply : Int) (wallet mint_pubkey : PubKey)
    (ser : List Instruction → List Nat) :
    Option ((Option PubKey × Option String) × List (PubKey × RateLimit) × List Event) :=
  match check_rate_limit userCfg defCfg mp now wallet with
  | none => none
  | some ((false, remaining), mp2) =>
    some ((none, some (rate_limit_message (remaining.getD 0))), mp2,
          [Event.rateCheck wallet])
  | some ((true, _), mp2) =>
    match rent_exempt with
    | Except.error e =>
      some ((none, some ("Transaction failed: " ++ e)), mp2,
            [Event.rateCheck wallet, Event.rpcRentExempt])
    | Except.ok rent_exempt_min =>
      let instrs : List Instruction :=
        [create_account_ix wallet mint_pubkey rent_exempt_min 82 TOKEN_PROGRAM_ID,
         create_mint_ix wallet wallet wallet meta_decimals TOKEN_PROGRAM_ID mint_pubkey,
         create_associated_token_account_ix wallet wallet mint_pubkey,
         mint_to_ix mint_pubkey (get_associated_token_address wallet mint_pubkey)
           meta_supply wallet]
      let tx := compileTransaction none instrs (ser instrs)
      let res := generate_deep_link_with_retry wl max_retries tx
      let trace := [Event.rateCheck wallet, Event.rpcRentExempt] ++
        List.replicate res.2 Event.encode
      match res.1 with
      | none => some ((none, some "Failed to generate transaction"), mp2, trace)
      | some deep_link => some ((some mint_pubkey, some deep_link), mp2, trace)

/-- `disable_selling`: rate gate, day-range validation, custom
instruction, deep-link pipeline. -/
def disable_selling (userCfg : PubKey → Option RateConfig) (defCfg : RateConfig)
    (mp : List (PubKey × RateLimit)) (now : Int)
    (max_retries : Nat) (wl : List PubKey) (smart_contract_pid : PubKey)
    (mint_address wallet : PubKey) (days : Int)
    (ser : List Instruction → List Nat) :
    Option (Option String × List (PubKey × RateLimit) × List Event) :=
  match check_rate_limit userCfg defCfg mp now wallet with
  | none => none
  | some ((false, remaining), mp2) =>
    some (some (rate_limit_message (remaining.getD 0)), mp2, [Event.rateCheck wallet])
  | some ((true, _), mp2) =>
    if ¬(1 ≤ days ∧ days ≤ 7) then
      some (some "Invalid duration (1-7 days only)", mp2, [Event.rateCheck wallet])
    else
      let instruction := disable_selling_instruction smart_contract_pid mint_address wallet days
      let tx := compileTransaction (some wallet) [instruction] (ser [instruction])
      let res := generate_deep_link_with_retry wl max_retries tx
      some (res.1, mp2, [Event.rateCheck wallet] ++ List.replicate res.2 Event.encode)

/-- `revoke_authorities`: rate gate, two `set_authority` instructions,
deep-link pipeline. -/
def revoke_authorities (userCfg : PubKey → Option RateConfig) (defCfg : RateConfig)
    (mp : List (PubKey × RateLimit)) (now : Int)
    (max_retries : Nat) (wl : List PubKey)
    (mint_address wallet : PubKey)
    (ser : List Instruction → List Nat) :
    Option (Option String × List (PubKey × RateLimit) × List Event) :=
  match check_rate_limit userCfg defCfg mp now wallet with
  | none => none
  | some ((false, remaining), mp2) =>
    some (some (rate_limit_message (remaining.getD 0)), mp2, [Event.rateCheck wallet])
  | some ((true, _), mp2) =>
    let instrs : List Instruction :=
      [set_authority_ix mint_address wallet AuthorityType.mintTokens none TOKEN_PROGRAM_ID,
       set_authority_ix mint_address wallet AuthorityType.freezeAccount none TOKEN_PROGRAM_ID]
    let tx := compileTransaction none instrs (ser instrs)
    let res := generate_deep_link_with_retry wl max_retries tx
    some (res.1, mp2, [Event.rateCheck wallet] ++ List.replicate res.2 Event.encode)

/-- The `TransactionStatus` enum. -/
inductive TransactionStatus where
  | confirmed
  | failed
  | pending
  | timeout
deriving DecidableEq, Repr

/-- The dictionary `confirm_transaction` returns: status plus optional
`details` / `error` entries. -/
structure ConfirmationResult where
  status : TransactionStatus
  details : Option String
  error : Option String
deriving DecidableEq, Repr

/-- Outcome of one `get_transaction` RPC call, indexed by attempt
number.  `found` is a truthy response whose `result` entry holds the
detail payload; `notFound` is a response without a result;
`netError` is a raised `aiohttp.ClientError`; `otherError` any other
raised exception. -/
inductive RpcResponse where
  | found (details : String)
  | notFound
  | netError (msg : String)
  | otherError (msg : String)
deriving DecidableEq, Repr

/-- Attempt loop of `confirm_transaction` with the remaining attempt
count as fuel, returning the result and the trace of RPC calls made.
A found result returns CONFIRMED at once; a non-network exception
returns FAILED at once; a missing result or network error falls through
to the next attempt; exhausted attempts yield TIMEOUT. -/
def confirm_go (oracle : Nat → RpcResponse) : Nat → Nat → ConfirmationResult × List Event
  | _, 0 => (⟨TransactionStatus.timeout, none, some "Max retries exceeded"⟩, [])
  | attempt, rem + 1 =>
    match oracle attempt with
    | RpcResponse.found d =>
      (⟨TransactionStatus.confirmed, some d, none⟩, [Event.rpcGetTransaction attempt])
    | RpcResponse.otherError e =>
      (⟨TransactionStatus.failed, none, some e⟩, [Event.rpcGetTransaction attempt])
    | _ =>
      let r := confirm_go oracle (attempt + 1) rem
      (r.1, Event.rpcGetTransaction attempt :: r.2)

/-- `confirm_transaction(txid)`: attempts numbered from 1 up to
`max_retries`.  The transaction id only indexes the oracle, so it is
left implicit in the oracle itself. -/
def confirm_transaction (oracle : Nat → RpcResponse) (max_retries : Nat) :
    ConfirmationResult × List Event :=
  confirm_go oracle 1 max_retries

/-- The six-field dictionary `fetch_token_metadata` builds from
successfully parsed metadata. -/
structure TokenMeta where
  name : String
  symbol : String
  decimals : Int
  total_supply : Int
  description : String
  image_url : Option String
deriving DecidableEq, Repr

/-- The base64 metadata blob extracted from a `getAccountInfo` response,
after the library-level base64/JSON decode: either the parsed fields
(defaults already applied) or the raw string when decoding failed. -/
inductive MetaBlob where
  | parsed (meta : TokenMeta)
  | unparseable (raw : String)
deriving DecidableEq, Repr

/-- Outcome of one metadata-fetch HTTP interaction: a response with its
status code and extracted `result.value.data[0]` field, or a raised
exception. -/
inductive FetchOutcome where
  | resp (status : Nat) (metadata : Option MetaBlob)
  | raise (msg : String)
deriving DecidableEq, Repr

/-- What `fetch_token_metadata` returns on success: the parsed
dictionary or the `raw_metadata` fallback. -/
inductive FetchValue where
  | fields (meta : TokenMeta)
  | raw_metadata (raw : String)
deriving DecidableEq, Repr

/-- Attempt loop of `fetch_token_metadata` with remaining attempts as
fuel: a 200 response with a metadata blob returns at once (parsed or
raw); a 200 response without metadata hits `continue`; any other status
or a raised exception falls through to the next attempt; exhausted
attempts yield `None`. -/
def fetch_go (oracle : Nat → FetchOutcome) : Nat → Nat → Option FetchValue × List Event
  | _, 0 => (none, [])
  | attempt, rem + 1 =>
    match oracle attempt with
    | FetchOutcome.resp status md =>
      if status = 200 then
        match md with
        | some (MetaBlob.parsed m) => (some (FetchValue.fields m), [Event.httpPost attempt])
        | some (MetaBlob.unparseable raw) =>
          (some (FetchValue.raw_metadata raw), [Event.httpPost attempt])
        | none =>
          let r := fetch_go oracle (attempt + 1) rem
          (r.1, Event.httpPost attempt :: r.2)
      else
        let r := fetch_go oracle (attempt + 1) rem
        (r.1, Event.httpPost attempt :: r.2)
    | FetchOutcome.raise _ =>
      let r := fetch_go oracle (attempt + 1) rem
      (r.1, Event.httpPost attempt :: r.2)

/-- `fetch_token_metadata(token_address)`, attempts numbered from 1. -/
def fetch_token_metadata (oracle : Nat → FetchOutcome) (max_retries : Nat) :
    Option FetchValue × List Event :=
  fetch_go oracle 1 max_retries

/-- Character class of the name regular expression
`^[a-zA-Z0-9 ]+$`. -/
def isAlnumSpaceChar (c : Char) : Bool :=
  ('a' ≤ c && c ≤ 'z') || ('A' ≤ c && c ≤ 'Z') || ('0' ≤ c && c ≤ '9') || c = ' '

/-- Character class of the symbol regular expression `^[a-zA-Z0-9]+$`. -/
def isAlnumChar (c : Char) : Bool :=
  ('a' ≤ c && c ≤ 'z') || ('A' ≤ c && c ≤ 'Z') || ('0' ≤ c && c ≤ '9')

/-- Python `re.match(r"^[...]+$", s)` viewed as a Boolean: the whole
string is a nonempty run of class characters, where `$` also accepts a
single trailing newline. -/
def pyFullMatch (cls : Char → Bool) (s : String) : Bool :=
  let cs := s.toList
  (!cs.isEmpty && cs.all cls) ||
  (cs.getLast? = some '\n' && !cs.dropLast.isEmpty && cs.dropLast.all cls)

/-- A metadata dictionary as the validators read it.  `none` in a field
stands for a missing key or a value of the wrong Python type. -/
structure MetaDict where
  name : Option String
  symbol : Option String
  decimals : Option Int
  initial_supply : Option Int
  description : Option String
deriving DecidableEq, Repr

/-- The Boolean-returning `validate_metadata` of the first bot variant
(part_000 lines 66-86): note its supply test is `< 0 or > 10**18`. -/
def validate_metadata_v1 (m : MetaDict) : Bool :=
  match m.name with
  | none => false
  | some nm =>
    if nm.isEmpty || !pyFullMatch isAlnumSpaceChar nm || nm.length > 30 then false
    else
      match m.symbol with
      | none => false
      | some sy =>
        if sy.isEmpty || !pyFullMatch isAlnumChar sy || sy.length > 10 then false
        else
          match m.decimals with
          | none => false
          | some d =>
            if d < 0 || d > 18 then false
            else
              match m.initial_supply with
              | none => false
              | some v => if v < 0 || v > (10 : Int) ^ 18 then false else true

/-- The message-returning `validate_metadata` of the later bot variants
(part_000 lines 672-706, 1505-1539, 2312-2345): its supply test is
`<= 0` with no upper bound, and it additionally bounds the optional
description at 200 characters. -/
def validate_metadata_v2 (m : MetaDict) : Bool × Option String :=
  match m.name with
  | none => (false, some "Token name is required")
  | some nm =>
    if nm.isEmpty then (false, some "Token name is required")
    else if !pyFullMatch isAlnumSpaceChar nm then
      (false, some "Name can only contain letters, numbers and spaces")
    else if nm.length > 30 then (false, some "Name too long (max 30 chars)")
    else
      match m.symbol with
      | none => (false, some "Token symbol is required")
      | some sy =>
        if sy.isEmpty then (false, some "Token symbol is required")
        else if !pyFullMatch isAlnumChar sy then
          (false, some "Symbol can only contain letters and numbers")
        else if sy.length > 10 then (false, some "Symbol too long (max 10 chars)")
        else
          match m.decimals with
          | none => (false, some "Decimals must be a number")
          | some d =>
            if d < 0 || d > 18 then (false, some "Decimals must be between 0 and 18")
            else
              match m.initial_supply with
              | none => (false, some "Supply must be a number")
              | some v =>
                if v ≤ 0 then (false, some "Supply must be positive")
                else
                  match m.description with
                  | some ds =>
                    if ds.length > 200 then
                      (false, some "Description too long (max 200 chars)")
                    else (true, none)
                  | none => (true, none)

/-- A response outcome the confirmation loop treats as
retry-eligible: a missing result or a network error. -/
def retryable : RpcResponse → Bool
  | RpcResponse.notFound => true
  | RpcResponse.netError _ => true
  | _ => false

section Lemmas

/-- A rejected validation skips the encoder on every attempt, so the
retry loop ends with no link and zero encoder invocations. -/
theorem retry_of_validate_false (wl : List PubKey) (tx : Transaction)
    (h : validate_transaction_security wl tx = false) :
    ∀ n, deep_link_retry_go wl tx n = (none, 0) := by
  intro n
  induction n with
  | zero => rfl
  | succ m ih => simp [deep_link_retry_go, h, ih]

/-- A transaction over the ledger size ceiling fails the security
validator. -/
theorem validate_false_of_oversize (wl : List PubKey) (tx : Transaction)
    (h : MAX_TRANSACTION_SIZE < tx.serialized.length) :
    validate_transaction_security wl tx = false := by
  rw [validate_transaction_security]
  split
  · rfl
  · simp [Nat.not_le.mpr h]

/-- Any link the retry loop produces has the wallet URI shape. -/
theorem retry_link_shape (wl : List PubKey) (tx : Transaction) :
    ∀ n s, (deep_link_retry_go wl tx n).1 = some s →
      ∃ b64txn, s = "https://phantom.app/ul/v1/?tx=" ++ b64txn ++ "&type=transaction" := by
  intro n
  induction n with
  | zero => intro s h; simp [deep_link_retry_go] at h
  | succ m ih =>
    intro s h
    rw [deep_link_retry_go] at h
    by_cases hv : validate_transaction_security wl tx
    · rw [if_pos hv] at h
      cases he : generate_phantom_deep_link tx with
      | none => rw [he] at h; exact ih s h
      | some dl =>
        rw [he] at h
        have hdl : dl = s := by simpa using h
        subst hdl
        rw [generate_phantom_deep_link] at he
        rw [generate_phantom_deep_link_ex] at he
        by_cases h1 : tx.serialized.isEmpty
        · rw [if_pos h1] at he; simp at he
        · rw [if_neg h1] at he
          by_cases h2 : (b64encodeStr tx.serialized).length > PHANTOM_DEEP_LINK_MAX_SIZE
          · simp only [h2, if_pos] at he; simp at he
          · simp only [h2, if_neg, if_false] at he
            exact ⟨b64encodeStr tx.serialized, by simpa using he.symm⟩
    · rw [if_neg hv] at h
      exact ih s h

/-- Rate-limit rejection makes `create_and_send_transaction` return the
rate message at once, touching nothing else. -/
theorem create_and_send_rate_rejected (userCfg : PubKey → Option RateConfig)
    (defCfg : RateConfig) (mp : List (PubKey × RateLimit)) (now : Int)
    (max_retries : Nat) (wl : List PubKey) (rent : Except String Int) (bal dec sup : Int)
    (wallet mint_pubkey : PubKey) (ser : List Instruction → List Nat)
    (remaining : Option Int) (mp2 : List (PubKey × RateLimit))
    (h : check_rate_limit userCfg defCfg mp now wallet = some ((false, remaining), mp2)) :
    create_and_send_transaction userCfg defCfg mp now max_retries wl rent bal dec sup
        wallet mint_pubkey ser =
      some ((none, some (rate_limit_message (remaining.getD 0))), mp2,
            [Event.rateCheck wallet]) := by
  rw [create_and_send_transaction, h]

/-- Rate-limit rejection makes `disable_selling` return the rate
message at once. -/
theorem disable_selling_rate_rejected (userCfg : PubKey → Option RateConfig)
    (defCfg : RateConfig) (mp : List (PubKey × RateLimit)) (now : Int)
    (max_retries : Nat) (wl : List PubKey) (smart_contract_pid : PubKey)
    (mint_address wallet : PubKey) (days : Int) (ser : List Instruction → List Nat)
    (remaining : Option Int) (mp2 : List (PubKey × RateLimit))
    (h : check_rate_limit userCfg defCfg mp now wallet = some ((false, remaining), mp2)) :
    disable_selling userCfg defCfg mp now max_retries wl smart_contract_pid
        mint_address wallet days ser =
      some (some (rate_limit_message (remaining.getD 0)), mp2, [Event.rateCheck wallet]) := by
  rw [disable_selling, h]

/-- Rate-limit rejection makes `revoke_authorities` return the rate
message at once. -/
theorem revoke_authorities_rate_rejected (userCfg : PubKey → Option RateConfig)
    (defCfg : RateConfig) (mp : List (PubKey × RateLimit)) (now : Int)
    (max_retries : Nat) (wl : List PubKey) (mint_address wallet : PubKey)
    (ser : List Instruction → List Nat)
    (remaining : Option Int) (mp2 : List (PubKey × RateLimit))
    (h : check_rate_limit userCfg defCfg mp now wallet = some ((false, remaining), mp2)) :
    revoke_authorities userCfg defCfg mp now max_retries wl mint_address wallet ser =
      some (some (rate_limit_message (remaining.getD 0)), mp2, [Event.rateCheck wallet]) := by
  rw [revoke_authorities, h]

/-- The confirmation loop's trace holds only `get_transaction` RPC
events; in particular it never records a rate check. -/
theorem confirm_go_no_rate_check (oracle : Nat → RpcResponse) (u : PubKey) :
    ∀ rem attempt, Event.rateCheck u ∉ (confirm_go oracle attempt rem).2 := by
  intro rem
  induction rem with
  | zero => intro attempt; simp [confirm_go]
  | succ m ih =>
    intro attempt
    rw [confirm_go]
    cases oracle attempt <;> simp_all

/-- The metadata-fetch loop's trace holds only HTTP events; in
particular it never records a rate check. -/
theorem fetch_go_no_rate_check (oracle : Nat → FetchOutcome) (u : PubKey) :
    ∀ rem attempt, Event.rateCheck u ∉ (fetch_go oracle attempt rem).2 := by
  intro rem
  induction rem with
  | zero => intro attempt; simp [fetch_go]
  | succ m ih =>
    intro attempt
    rw [fetch_go]
    rcases oracle attempt with ⟨status, md⟩ | msg
    · by_cases hs : status = 200
      · rcases md with _ | ⟨m2⟩ | ⟨raw⟩ <;> simp_all [hs]
      · simp_all [hs]
    · simp_all

/-- When every attempt is retry-eligible, the confirmation loop uses
all its attempts and times out. -/
theorem confirm_go_retry_all (oracle : Nat → RpcResponse)
    (h : ∀ k, retryable (oracle k) = true) :
    ∀ rem attempt,
      (confirm_go oracle attempt rem).1 =
        ⟨TransactionStatus.timeout, none, some "Max retries exceeded"⟩ ∧
      (confirm_go oracle attempt rem).2.length = rem := by
  intro rem
  induction rem with
  | zero => intro attempt; exact ⟨rfl, rfl⟩
  | succ m ih =>
    intro attempt
    have hk := h attempt
    rw [confirm_go]
    cases ho : oracle attempt <;> rw [ho] at hk <;> simp [retryable] at hk <;>
      simpa using ih (attempt + 1)

end Lemmas

section Claims

/-- C2 (confirmed): on each `check_rate_limit` call, exactly the
timestamps older than the interval are pruned; with the window still
full the call rejects with `interval - (now - oldest)` where the list
head is the oldest surviving timestamp; otherwise it admits and records
`now`. -/
theorem check_rate_limit_spec (now : Int) (rl : RateLimit)
    (hreq : 1 ≤ rl.requests)
    (hsort : rl.timestamps.Sorted (fun a b => a ≤ b)) :
    (∀ ts, ts ∈ rl.timestamps.filter (fun ts => decide (now - ts ≤ rl.interval)) ↔
        ts ∈ rl.timestamps ∧ now - ts ≤ rl.interval) ∧
    (rl.requests ≤ (rl.timestamps.filter (fun ts => decide (now - ts ≤ rl.interval))).length →
      check_rate_limit_core now rl =
        some ((false, some (rl.interval - (now -
            (rl.timestamps.filter (fun ts => decide (now - ts ≤ rl.interval))).headD 0))),
          { rl with timestamps := rl.timestamps.filter (fun ts => decide (now - ts ≤ rl.interval)) }) ∧
      ∀ ts ∈ rl.timestamps.filter (fun ts => decide (now - ts ≤ rl.interval)),
        (rl.timestamps.filter (fun ts => decide (now - ts ≤ rl.interval))).headD 0 ≤ ts) ∧
    ((rl.timestamps.filter (fun ts => decide (now - ts ≤ rl.interval))).length < rl.requests →
      check_rate_limit_core now rl =
        some ((true, none),
          { rl with timestamps :=
              rl.timestamps.filter (fun ts => decide (now - ts ≤ rl.interval)) ++ [now] })) := by
  refine ⟨?_, ?_, ?_⟩
  · intro ts; simp [List.mem_filter]
  · intro hfull
    cases hk : rl.timestamps.filter (fun ts => decide (now - ts ≤ rl.interval)) with
    | nil => rw [hk] at hfull; simp at hfull; omega
    | cons oldest tail =>
      constructor
      · rw [check_rate_limit_core]
        simp only [hk] at hfull ⊢
        rw [if_pos hfull]
        simp
      · have hs : (oldest :: tail).Sorted (fun a b => a ≤ b) := by
          rw [← hk]; exact hsort.filter _
        intro ts hts
        simp only [List.headD_cons]
        rcases List.mem_cons.mp hts with h | h
        · omega
        · exact (List.sorted_cons.mp hs).1 ts h
  · intro hroom
    rw [check_rate_limit_core]
    rw [if_neg (by omega)]

/-- Witness for C2: one entry aged 55 seconds into a 60-second window
with limit 1 rejects with 5 seconds to wait; the same entry under
limit 5 admits and records the call time. -/
theorem check_rate_limit_spec_witness :
    check_rate_limit_core 60 ⟨1, 60, [5]⟩ = some ((false, some 5), ⟨1, 60, [5]⟩) ∧
    check_rate_limit_core 60 ⟨5, 60, [5]⟩ = some ((true, none), ⟨5, 60, [5, 60]⟩) := by
  constructor
  · have h := (check_rate_limit_spec 60 ⟨1, 60, [5]⟩ (by decide) (by decide)).2.1 (by decide)
    simpa using h.1
  · have h := (check_rate_limit_spec 60 ⟨5, 60, [5]⟩ (by decide) (by decide)).2.2 (by decide)
    simpa using h

/-- C5 (confirmed): the deep-link encoder yields no URI when the
serialized transaction is empty or its base64 form exceeds 2000
characters, and otherwise yields exactly
`https://phantom.app/ul/v1/?tx=<base64>&type=transaction`. -/
theorem deep_link_encoder_contract (tx : Transaction) :
    generate_phantom_deep_link tx =
      if tx.serialized.isEmpty then none
      else if 2000 < (b64encodeStr tx.serialized).length then none
      else some ("https://phantom.app/ul/v1/?tx=" ++ b64encodeStr tx.serialized ++
        "&type=transaction") := by
  rw [generate_phantom_deep_link, generate_phantom_deep_link_ex]
  by_cases h1 : tx.serialized.isEmpty
  · simp [h1]
  · by_cases h2 : 2000 < (b64encodeStr tx.serialized).length
    · simp [h1, h2, PHANTOM_DEEP_LINK_MAX_SIZE]
    · simp [h1, h2, PHANTOM_DEEP_LINK_MAX_SIZE]

/-- C8 (confirmed): `disable_selling` rejects any day count outside
1..7 before building anything, and the instruction it builds for an
in-range day count carries exactly the discriminator byte followed by
the 4-byte little-endian day count. -/
theorem disable_selling_days_contract :
    (∀ (userCfg : PubKey → Option RateConfig) (defCfg : RateConfig)
        (mp : List (PubKey × RateLimit)) (now : Int) (max_retries : Nat)
        (wl : List PubKey) (smart_contract_pid mint_address wallet : PubKey)
        (days : Int) (ser : List Instruction → List Nat)
        (r : Option Int) (mp2 : List (PubKey × RateLimit)),
      check_rate_limit userCfg defCfg mp now wallet = some ((true, r), mp2) →
      ¬(1 ≤ days ∧ days ≤ 7) →
      disable_selling userCfg defCfg mp now max_retries wl smart_contract_pid
          mint_address wallet days ser =
        some (some "Invalid duration (1-7 days only)", mp2, [Event.rateCheck wallet])) ∧
    (∀ (smart_contract_pid mint_address wallet : PubKey) (days : Int),
      1 ≤ days → days ≤ 7 →
      (disable_selling_instruction smart_contract_pid mint_address wallet days).data =
        [0, days.toNat, 0, 0, 0] ∧
      (disable_selling_instruction smart_contract_pid mint_address wallet days).data.length = 5) := by
  constructor
  · intro userCfg defCfg mp now max_retries wl spid mint wallet days ser r mp2 hrate hdays
    rw [disable_selling, hrate]
    simp [hdays]
  · intro spid mint wallet days h1 h7
    have hn : days.toNat < 256 := by omega
    have hz : days.toNat / 256 = 0 := Nat.div_eq_of_lt hn
    constructor
    · show serialize_disable_selling_data days.toNat = _
      rw [serialize_disable_selling_data]
      simp [toLEBytes, DISABLE_SELLING_INSTRUCTION_DISCRIMINATOR,
        Nat.mod_eq_of_lt hn, hz]
    · show (serialize_disable_selling_data days.toNat).length = 5
      rw [serialize_disable_selling_data]
      simp [toLEBytes]

/-- Witness for C8: day count 9 is rejected with the exact message; day
count 3 serializes to `[0, 3, 0, 0, 0]`. -/
theorem disable_selling_days_contract_witness :
    disable_selling (fun _ => none) ⟨5, 60⟩ [] 0 3 [SYS_PROGRAM_ID] "prog" "m" "w" 9
        (fun _ => [1, 2, 3]) =
      some (some "Invalid duration (1-7 days only)", [("w", ⟨5, 60, [0]⟩)],
            [Event.rateCheck "w"]) ∧
    (disable_selling_instruction "prog" "m" "w" 3).data = [0, 3, 0, 0, 0] := by
  constructor
  · exact disable_selling_days_contract.1 (fun _ => none) ⟨5, 60⟩ [] 0 3 [SYS_PROGRAM_ID]
      "prog" "m" "w" 9 (fun _ => [1, 2, 3]) none [("w", ⟨5, 60, [0]⟩)] (by decide) (by decide)
  · exact (disable_selling_days_contract.2 "prog" "m" "w" 3 (by decide) (by decide)).1

/-- C4 (confirmed): a transaction holding an instruction whose program
identifier is outside the allow-list is rejected by the security
validator, and a rejected transaction makes the retry pipeline return
no URI with zero encoder invocations. -/
theorem unlisted_program_short_circuits :
    (∀ (wl : List PubKey) (tx : Transaction) (ins : CompiledInstruction) (pid : PubKey),
      ins ∈ tx.message.instructions →
      tx.message.account_keys[ins.program_id_index]? = some pid →
      pid ∉ wl →
      validate_transaction_security wl tx = false) ∧
    (∀ (wl : List PubKey) (max_retries : Nat) (tx : Transaction),
      validate_transaction_security wl tx = false →
      generate_deep_link_with_retry wl max_retries tx = (none, 0)) := by
  constructor
  · intro wl tx ins pid hins hget hpid
    rw [validate_transaction_security]
    rw [if_neg (by simp [List.isEmpty_iff]; exact List.ne_nil_of_mem hins)]
    have hins_false : validate_instruction_ok wl tx.message.account_keys ins = false := by
      rw [validate_instruction_ok, hget]
      simp [hpid]
    have hall : tx.message.instructions.all
        (validate_instruction_ok wl tx.message.account_keys) = false := by
      rcases Bool.eq_false_or_eq_true (tx.message.instructions.all
        (validate_instruction_ok wl tx.message.account_keys)) with h | h
      · have := List.all_eq_true.mp h ins hins
        rw [hins_false] at this
        cases this
      · exact h
    rw [hall, Bool.false_and]
  · intro wl max_retries tx h
    exact retry_of_validate_false wl tx h max_retries

/-- Witness for C4: a one-instruction transaction naming a program
outside the allow-list is rejected and the pipeline yields no URI and
never invokes the encoder. -/
theorem unlisted_program_short_circuits_witness :
    validate_transaction_security [SYS_PROGRAM_ID]
        ⟨⟨["EvilProgram111111111111111111111111111111111"], [⟨0, [], []⟩]⟩, [1]⟩ = false ∧
    generate_deep_link_with_retry [SYS_PROGRAM_ID] 3
        ⟨⟨["EvilProgram111111111111111111111111111111111"], [⟨0, [], []⟩]⟩, [1]⟩ = (none, 0) := by
  have hv := unlisted_program_short_circuits.1 [SYS_PROGRAM_ID]
    ⟨⟨["EvilProgram111111111111111111111111111111111"], [⟨0, [], []⟩]⟩, [1]⟩
    ⟨0, [], []⟩ "EvilProgram111111111111111111111111111111111"
    (by decide) (by decide) (by decide)
  exact ⟨hv, unlisted_program_short_circuits.2 [SYS_PROGRAM_ID] 3 _ hv⟩

/-- C9 counterexample: for a transaction whose serialized payload is
over the ceiling (1233 bytes), the pipeline returns plain `none` — the
failure is not surfaced as a "transaction too large" message, and the
encoder is never reached at all (zero invocations), because the
security validator's size check rejects the transaction first on every
attempt. -/
theorem oversize_surfaces_generically :
    generate_deep_link_with_retry [SYS_PROGRAM_ID] 3
        ⟨⟨[SYS_PROGRAM_ID], [⟨0, [], []⟩]⟩, List.replicate 1233 1⟩ = (none, 0) ∧
    (generate_deep_link_with_retry [SYS_PROGRAM_ID] 3
        ⟨⟨[SYS_PROGRAM_ID], [⟨0, [], []⟩]⟩, List.replicate 1233 1⟩).1 ≠
      some "Transaction too large for Phantom Deep Link" := by
  have h := retry_of_validate_false [SYS_PROGRAM_ID]
    ⟨⟨[SYS_PROGRAM_ID], [⟨0, [], []⟩]⟩, List.replicate 1233 1⟩
    (validate_false_of_oversize _ _
      (by show MAX_TRANSACTION_SIZE < (List.replicate 1233 1).length
          rw [List.length_replicate]; decide)) 3
  rw [generate_deep_link_with_retry, h]
  exact ⟨rfl, by simp⟩

/-- C9 (corrected): an oversize serialized payload is rejected by the
security validator on every attempt, so the encoder is never invoked
(hence never re-invoked) and the pipeline's failure is the generic
`none`, not a "transaction too large" outcome. -/
theorem oversize_never_encoded (wl : List PubKey) (max_retries : Nat) (tx : Transaction)
    (h : MAX_TRANSACTION_SIZE < tx.serialized.length) :
    generate_deep_link_with_retry wl max_retries tx = (none, 0) := by
  exact retry_of_validate_false wl tx (validate_false_of_oversize wl tx h) max_retries

/-- Witness for C9: the 1233-byte transaction under the default three
attempts. -/
theorem oversize_never_encoded_witness :
    generate_deep_link_with_retry [SYS_PROGRAM_ID] 3
        ⟨⟨[SYS_PROGRAM_ID], [⟨0, [], []⟩]⟩, List.replicate 1233 0⟩ = (none, 0) :=
  oversize_never_encoded [SYS_PROGRAM_ID] 3 _
    (by show MAX_TRANSACTION_SIZE < (List.replicate 1233 0).length
        rw [List.length_replicate]; decide)

/-- C7 counterexample: the Boolean validator accepts
`initial_supply = 0` (the claim demands rejection of every supply ≤ 0),
and the message-returning validator accepts `initial_supply = 10^18 + 1`
(the claim demands rejection of every supply > 10^18). -/
theorem validate_metadata_boundary_counterexample :
    validate_metadata_v1 ⟨some "Test Coin", some "TST", some 9, some 0, none⟩ = true ∧
    validate_metadata_v2 ⟨some "Test Coin", some "TST", some 9,
        some ((10 : Int) ^ 18 + 1), none⟩ = (true, none) := by
  constructor
  · decide
  · rw [validate_metadata_v2]
    norm_num
    decide

/-- C7 (corrected): with a valid name and symbol and no description,
both validators reject decimals outside [0,18] and pass decimals inside
it; but the Boolean validator accepts any supply in [0, 10^18]
(including 0), while the message-returning validator accepts any
positive supply (with no 10^18 bound). -/
theorem validate_metadata_ranges (nm sy : String) (d v : Int)
    (hn1 : nm.isEmpty = false) (hn2 : pyFullMatch isAlnumSpaceChar nm = true)
    (hn3 : ¬nm.length > 30)
    (hs1 : sy.isEmpty = false) (hs2 : pyFullMatch isAlnumChar sy = true)
    (hs3 : ¬sy.length > 10) :
    (validate_metadata_v1 ⟨some nm, some sy, some d, some v, none⟩ = true ↔
      0 ≤ d ∧ d ≤ 18 ∧ 0 ≤ v ∧ v ≤ 10 ^ 18) ∧
    (validate_metadata_v2 ⟨some nm, some sy, some d, some v, none⟩ = (true, none) ↔
      0 ≤ d ∧ d ≤ 18 ∧ 0 < v) ∧
    (¬(0 ≤ d ∧ d ≤ 18) →
      validate_metadata_v1 ⟨some nm, some sy, some d, some v, none⟩ = false ∧
      validate_metadata_v2 ⟨some nm, some sy, some d, some v, none⟩ =
        (false, some "Decimals must be between 0 and 18")) := by
  have e1 : validate_metadata_v1 ⟨some nm, some sy, some d, some v, none⟩ =
      (if d < 0 || d > 18 then false
       else if v < 0 || v > (10 : Int) ^ 18 then false else true) := by
    rw [validate_metadata_v1]
    simp only [hn1, hn2, hn3, hs1, hs2, hs3]
    simp
  have e2 : validate_metadata_v2 ⟨some nm, some sy, some d, some v, none⟩ =
      (if d < 0 || d > 18 then (false, some "Decimals must be between 0 and 18")
       else if v ≤ 0 then (false, some "Supply must be positive") else (true, none)) := by
    rw [validate_metadata_v2]
    simp only [hn1, hn2, hn3, hs1, hs2, hs3]
    simp
  refine ⟨?_, ?_, ?_⟩
  · rw [e1]
    by_cases hd : d < 0 || d > 18
    · simp only [hd, if_pos]
      simp at hd ⊢
      omega
    · rw [if_neg (by simpa using hd)]
      simp at hd
      by_cases hv : v < 0 || v > (10 : Int) ^ 18
      · simp only [hv, if_pos]
        simp at hv ⊢
        omega
      · rw [if_neg (by simpa using hv)]
        simp at hv
        simp
        omega
  · rw [e2]
    by_cases hd : d < 0 || d > 18
    · simp only [hd, if_pos]
      simp at hd ⊢
      omega
    · rw [if_neg (by simpa using hd)]
      simp at hd
      by_cases hv : v ≤ 0
      · rw [if_pos hv]
        simp
        omega
      · rw [if_neg hv]
        simp
        omega
  · intro hd
    rw [e1, e2]
    rw [if_pos (by simp; omega), if_pos (by simp; omega)]
    exact ⟨rfl, rfl⟩

/-- Witness for C7: the sample metadata (name "Test Coin", symbol
"TST", decimals 9) passes both validators at supply 1000000, and
decimals 19 fails both. -/
theorem validate_metadata_ranges_witness :
    validate_metadata_v1 ⟨some "Test Coin", some "TST", some 9, some 1000000, none⟩ = true ∧
    validate_metadata_v2 ⟨some "Test Coin", some "TST", some 9, some 1000000, none⟩ = (true, none) ∧
    validate_metadata_v1 ⟨some "Test Coin", some "TST", some 19, some 1000000, none⟩ = false := by
  refine ⟨?_, ?_, ?_⟩
  · exact (validate_metadata_ranges "Test Coin" "TST" 9 1000000 (by decide) (by decide)
      (by decide) (by decide) (by decide) (by decide)).1.mpr (by norm_num)
  · exact (validate_metadata_ranges "Test Coin" "TST" 9 1000000 (by decide) (by decide)
      (by decide) (by decide) (by decide) (by decide)).2.1.mpr (by norm_num)
  · exact ((validate_metadata_ranges "Test Coin" "TST" 19 1000000 (by decide) (by decide)
      (by decide) (by decide) (by decide) (by decide)).2.2 (by norm_num)).1

/-- C6 (confirmed): the confirmation poller returns CONFIRMED with the
RPC detail payload as soon as a query yields a result; a non-network
error returns FAILED at once with no further attempts; a transient
network error leaves the next attempt to run; and a run of
retry-eligible outcomes exhausts exactly `max_retries` attempts and
returns TIMEOUT. -/
theorem confirm_transaction_state_machine :
    (∀ (oracle : Nat → RpcResponse) (d : String) (max_retries : Nat),
      1 ≤ max_retries → oracle 1 = RpcResponse.found d →
      confirm_transaction oracle max_retries =
        (⟨TransactionStatus.confirmed, some d, none⟩, [Event.rpcGetTransaction 1])) ∧
    (∀ (oracle : Nat → RpcResponse) (e : String) (max_retries : Nat),
      1 ≤ max_retries → oracle 1 = RpcResponse.otherError e →
      confirm_transaction oracle max_retries =
        (⟨TransactionStatus.failed, none, some e⟩, [Event.rpcGetTransaction 1])) ∧
    (∀ (oracle : Nat → RpcResponse) (m d : String) (max_retries : Nat),
      2 ≤ max_retries → oracle 1 = RpcResponse.netError m → oracle 2 = RpcResponse.found d →
      confirm_transaction oracle max_retries =
        (⟨TransactionStatus.confirmed, some d, none⟩,
         [Event.rpcGetTransaction 1, Event.rpcGetTransaction 2])) ∧
    (∀ (oracle : Nat → RpcResponse) (max_retries : Nat),
      (∀ k, retryable (oracle k) = true) →
      (confirm_transaction oracle max_retries).1 =
        ⟨TransactionStatus.timeout, none, some "Max retries exceeded"⟩ ∧
      (confirm_transaction oracle max_retries).2.length = max_retries) := by
  refine ⟨?_, ?_, ?_, ?_⟩
  · intro oracle d max_retries hmax h1
    obtain ⟨r, rfl⟩ : ∃ r, max_retries = r + 1 := ⟨max_retries - 1, by omega⟩
    rw [confirm_transaction, confirm_go, h1]
  · intro oracle e max_retries hmax h1
    obtain ⟨r, rfl⟩ : ∃ r, max_retries = r + 1 := ⟨max_retries - 1, by omega⟩
    rw [confirm_transaction, confirm_go, h1]
  · intro oracle m d max_retries hmax h1 h2
    obtain ⟨r, rfl⟩ : ∃ r, max_retries = r + 2 := ⟨max_retries - 2, by omega⟩
    rw [confirm_transaction, confirm_go, h1]
    rw [confirm_go, h2]
  · intro oracle max_retries h
    exact confirm_go_retry_all oracle h max_retries 1

/-- Witness for C6: a stub that answers immediately confirms in one
attempt; a stub that always raises a network error times out after
exactly the three configured attempts. -/
theorem confirm_transaction_state_machine_witness :
    confirm_transaction (fun _ => RpcResponse.found "detail") 3 =
      (⟨TransactionStatus.confirmed, some "detail", none⟩, [Event.rpcGetTransaction 1]) ∧
    (confirm_transaction (fun _ => RpcResponse.netError "conn reset") 3).1 =
      ⟨TransactionStatus.timeout, none, some "Max retries exceeded"⟩ ∧
    (confirm_transaction (fun _ => RpcResponse.netError "conn reset") 3).2.length = 3 := by
  refine ⟨?_, ?_, ?_⟩
  · exact confirm_transaction_state_machine.1 (fun _ => RpcResponse.found "detail") "detail" 3
      (by decide) rfl
  · exact (confirm_transaction_state_machine.2.2.2 (fun _ => RpcResponse.netError "conn reset") 3
      (fun k => rfl)).1
  · exact (confirm_transaction_state_machine.2.2.2 (fun _ => RpcResponse.netError "conn reset") 3
      (fun k => rfl)).2

/-- C1 counterexample: with a payer balance of 0 — far below any fee or
rent floor, let alone the 0.002-unit policy floor — the composer still
proceeds: it returns the mint and a deep link, its trace queries only
the rent-exemption minimum, and no "insufficient funds" reason is ever
produced. -/
theorem create_and_send_ignores_balance_counterexample :
    create_and_send_transaction (fun _ => none) ⟨5, 60⟩ [] 0 3
        [SYS_PROGRAM_ID, TOKEN_PROGRAM_ID, ASSOCIATED_TOKEN_PROGRAM_ID]
        (Except.ok 300000) 0 9 1000000 "w" "mint1" (fun _ => [1, 2, 3]) =
      some ((some "mint1", some "https://phantom.app/ul/v1/?tx=AQID&type=transaction"),
            [("w", ⟨5, 60, [0]⟩)],
            [Event.rateCheck "w", Event.rpcRentExempt, Event.encode]) := by
  rfl

/-- C1 (corrected): `create_and_send_transaction` never queries the
payer's balance, and every message it can return is the rate-limit
message, a "Transaction failed: ..." exception report, the generic
"Failed to generate transaction", or a wallet deep link — never an
"insufficient funds" reason. -/
theorem create_and_send_no_balance_query
    (userCfg : PubKey → Option RateConfig) (defCfg : RateConfig)
    (mp : List (PubKey × RateLimit)) (now : Int) (max_retries : Nat) (wl : List PubKey)
    (rent : Except String Int) (bal dec sup : Int) (wallet mint_pubkey : PubKey)
    (ser : List Instruction → List Nat)
    (out : (Option PubKey × Option String) × List (PubKey × RateLimit) × List Event)
    (h : create_and_send_transaction userCfg defCfg mp now max_retries wl rent bal dec sup
        wallet mint_pubkey ser = some out) :
    Event.rpcGetBalance ∉ out.2.2 ∧
    ∀ s, out.1.2 = some s →
      (∃ r : Int, s = rate_limit_message r) ∨
      (∃ e, s = "Transaction failed: " ++ e) ∨
      s = "Failed to generate transaction" ∨
      ∃ b64txn, s = "https://phantom.app/ul/v1/?tx=" ++ b64txn ++ "&type=transaction" := by
  rw [create_and_send_transaction] at h
  rcases hc : check_rate_limit userCfg defCfg mp now wallet with _ | ⟨⟨b, r⟩, mp2⟩
  · rw [hc] at h; simp at h
  · rw [hc] at h
    cases b
    · simp only [Option.some.injEq] at h
      subst h
      refine ⟨by simp, ?_⟩
      intro s hs
      simp only [Option.some.injEq] at hs
      exact Or.inl ⟨r.getD 0, hs.symm⟩
    · cases rent with
      | error e =>
        simp only [Option.some.injEq] at h
        subst h
        refine ⟨by simp, ?_⟩
        intro s hs
        simp only [Option.some.injEq] at hs
        exact Or.inr (Or.inl ⟨e, hs.symm⟩)
      | ok rentMin =>
        simp only [] at h
        rcases hdl : (generate_deep_link_with_retry wl max_retries
            (compileTransaction none
              [create_account_ix wallet mint_pubkey rentMin 82 TOKEN_PROGRAM_ID,
               create_mint_ix wallet wallet wallet dec TOKEN_PROGRAM_ID mint_pubkey,
               create_associated_token_account_ix wallet wallet mint_pubkey,
               mint_to_ix mint_pubkey (get_associated_token_address wallet mint_pubkey)
                 sup wallet]
              (ser
                [create_account_ix wallet mint_pubkey rentMin 82 TOKEN_PROGRAM_ID,
                 create_mint_ix wallet wallet wallet dec TOKEN_PROGRAM_ID mint_pubkey,
                 create_associated_token_account_ix wallet wallet mint_pubkey,
                 mint_to_ix mint_pubkey (get_associated_token_address wallet mint_pubkey)
                   sup wallet]))).1 with _ | link <;>
          rw [hdl] at h <;> simp only [Option.some.injEq] at h <;> subst h
        · refine ⟨by simp [List.mem_append, List.mem_replicate], ?_⟩
          intro s hs
          simp only [Option.some.injEq] at hs
          exact Or.inr (Or.inr (Or.inl hs.symm))
        · refine ⟨by simp [List.mem_append, List.mem_replicate], ?_⟩
          intro s hs
          simp only [Option.some.injEq] at hs
          subst hs
          refine Or.inr (Or.inr (Or.inr ?_))
          rw [generate_deep_link_with_retry] at hdl
          exact retry_link_shape _ _ _ _ hdl

/-- Witness for C1: the zero-balance run above instantiates the
theorem: the trace holds no balance query and the returned message is a
deep link. -/
theorem create_and_send_no_balance_query_witness :
    Event.rpcGetBalance ∉
      ([Event.rateCheck "w", Event.rpcRentExempt, Event.encode] : List Event) ∧
    ((∃ r : Int, "https://phantom.app/ul/v1/?tx=AQID&type=transaction" = rate_limit_message r) ∨
     (∃ e, "https://phantom.app/ul/v1/?tx=AQID&type=transaction" = "Transaction failed: " ++ e) ∨
     "https://phantom.app/ul/v1/?tx=AQID&type=transaction" = "Failed to generate transaction" ∨
     ∃ b64txn, "https://phantom.app/ul/v1/?tx=AQID&type=transaction" =
       "https://phantom.app/ul/v1/?tx=" ++ b64txn ++ "&type=transaction") := by
  have h := create_and_send_no_balance_query (fun _ => none) ⟨5, 60⟩ [] 0 3
      [SYS_PROGRAM_ID, TOKEN_PROGRAM_ID, ASSOCIATED_TOKEN_PROGRAM_ID]
      (Except.ok 300000) 0 9 1000000 "w" "mint1" (fun _ => [1, 2, 3]) _ rfl
  exact ⟨h.1, h.2 _ rfl⟩

/-- C3 counterexample: the confirmation poller and the metadata fetcher
do their RPC work with no rate check at all — their whole traces are
RPC events, and the poller completes a confirmation — contradicting the
claim that every such operation calls `check_rate_limit` first. -/
theorem poller_and_fetcher_skip_rate_gate :
    (confirm_transaction (fun _ => RpcResponse.found "detail") 3).2 =
      [Event.rpcGetTransaction 1] ∧
    (confirm_transaction (fun _ => RpcResponse.found "detail") 3).1.status =
      TransactionStatus.confirmed ∧
    (fetch_token_metadata
        (fun _ => FetchOutcome.resp 200 (some (MetaBlob.unparseable "blob"))) 3).2 =
      [Event.httpPost 1] := by
  exact ⟨rfl, rfl, rfl⟩

/-- C3 (corrected): the three transaction-building operations check the
rate limit first and short-circuit on rejection with the "rate limited"
message and no further work, but `confirm_transaction` and
`fetch_token_metadata` never consult the rate limiter at all. -/
theorem rate_gate_coverage :
    (∀ (userCfg : PubKey → Option RateConfig) (defCfg : RateConfig)
        (mp : List (PubKey × RateLimit)) (now : Int) (max_retries : Nat)
        (wl : List PubKey) (rent : Except String Int) (bal dec sup : Int)
        (wallet mint_pubkey : PubKey)
        (ser : List Instruction → List Nat) (remaining : Option Int)
        (mp2 : List (PubKey × RateLimit)),
      check_rate_limit userCfg defCfg mp now wallet = some ((false, remaining), mp2) →
      create_and_send_transaction userCfg defCfg mp now max_retries wl rent bal dec sup
          wallet mint_pubkey ser =
        some ((none, some (rate_limit_message (remaining.getD 0))), mp2,
              [Event.rateCheck wallet])) ∧
    (∀ (userCfg : PubKey → Option RateConfig) (defCfg : RateConfig)
        (mp : List (PubKey × RateLimit)) (now : Int) (max_retries : Nat)
        (wl : List PubKey) (smart_contract_pid mint_address wallet : PubKey) (days : Int)
        (ser : List Instruction → List Nat) (remaining : Option Int)
        (mp2 : List (PubKey × RateLimit)),
      check_rate_limit userCfg defCfg mp now wallet = some ((false, remaining), mp2) →
      disable_selling userCfg defCfg mp now max_retries wl smart_contract_pid
          mint_address wallet days ser =
        some (some (rate_limit_message (remaining.getD 0)), mp2, [Event.rateCheck wallet])) ∧
    (∀ (userCfg : PubKey → Option RateConfig) (defCfg : RateConfig)
        (mp : List (PubKey × RateLimit)) (now : Int) (max_retries : Nat)
        (wl : List PubKey) (mint_address wallet : PubKey)
        (ser : List Instruction → List Nat) (remaining : Option Int)
        (mp2 : List (PubKey × RateLimit)),
      check_rate_limit userCfg defCfg mp now wallet = some ((false, remaining), mp2) →
      revoke_authorities userCfg defCfg mp now max_retries wl mint_address wallet ser =
        some (some (rate_limit_message (remaining.getD 0)), mp2, [Event.rateCheck wallet])) ∧
    (∀ (oracle : Nat → RpcResponse) (max_retries : Nat) (u : PubKey),
      Event.rateCheck u ∉ (confirm_transaction oracle max_retries).2) ∧
    (∀ (oracle : Nat → FetchOutcome) (max_retries : Nat) (u : PubKey),
      Event.rateCheck u ∉ (fetch_token_metadata oracle max_retries).2) := by
  refine ⟨?_, ?_, ?_, ?_, ?_⟩
  · intro userCfg defCfg mp now max_retries wl rent bal dec sup wallet mint_pubkey ser
      remaining mp2 h
    exact create_and_send_rate_rejected userCfg defCfg mp now max_retries wl rent bal dec
      sup wallet mint_pubkey ser remaining mp2 h
  · intro userCfg defCfg mp now max_retries wl spid mint wallet days ser remaining mp2 h
    exact disable_selling_rate_rejected userCfg defCfg mp now max_retries wl spid mint
      wallet days ser remaining mp2 h
  · intro userCfg defCfg mp now max_retries wl mint wallet ser remaining mp2 h
    exact revoke_authorities_rate_rejected userCfg defCfg mp now max_retries wl mint
      wallet ser remaining mp2 h
  · intro oracle max_retries u
    rw [confirm_transaction]
    exact confirm_go_no_rate_check oracle u max_retries 1
  · intro oracle max_retries u
    rw [fetch_token_metadata]
    exact fetch_go_no_rate_check oracle u max_retries 1

/-- Witness for C3: a user one call into a limit-1 window is rejected
by all three builders with the 5-second message, while the poller's
trace never holds a rate check. -/
theorem rate_gate_coverage_witness :
    create_and_send_transaction (fun _ => none) ⟨5, 60⟩ [("w", ⟨1, 60, [5]⟩)] 60 3 []
        (Except.ok 0) 0 9 1 "w" "m" (fun _ => []) =
      some ((none, some (rate_limit_message 5)), [("w", ⟨1, 60, [5]⟩)],
            [Event.rateCheck "w"]) ∧
    disable_selling (fun _ => none) ⟨5, 60⟩ [("w", ⟨1, 60, [5]⟩)] 60 3 [] "p" "m" "w" 3
        (fun _ => []) =
      some (some (rate_limit_message 5), [("w", ⟨1, 60, [5]⟩)], [Event.rateCheck "w"]) ∧
    revoke_authorities (fun _ => none) ⟨5, 60⟩ [("w", ⟨1, 60, [5]⟩)] 60 3 [] "m" "w"
        (fun _ => []) =
      some (some (rate_limit_message 5), [("w", ⟨1, 60, [5]⟩)], [Event.rateCheck "w"]) ∧
    Event.rateCheck "w" ∉ (confirm_transaction (fun _ => RpcResponse.notFound) 3).2 := by
  refine ⟨?_, ?_, ?_, ?_⟩
  · exact rate_gate_coverage.1 (fun _ => none) ⟨5, 60⟩ [("w", ⟨1, 60, [5]⟩)] 60 3 []
      (Except.ok 0) 0 9 1 "w" "m" (fun _ => []) (some 5) [("w", ⟨1, 60, [5]⟩)] rfl
  · exact rate_gate_coverage.2.1 (fun _ => none) ⟨5, 60⟩ [("w", ⟨1, 60, [5]⟩)] 60 3 []
      "p" "m" "w" 3 (fun _ => []) (some 5) [("w", ⟨1, 60, [5]⟩)] rfl
  · exact rate_gate_coverage.2.2.1 (fun _ => none) ⟨5, 60⟩ [("w", ⟨1, 60, [5]⟩)] 60 3 []
      "m" "w" (fun _ => []) (some 5) [("w", ⟨1, 60, [5]⟩)] rfl
  · exact rate_gate_coverage.2.2.2.1 (fun _ => RpcResponse.notFound) 3 "w"

/-- C10 counterexample: with the rate gate passing, an out-of-range day
count makes `disable_selling` return the non-None string
"Invalid duration (1-7 days only)" — a failure path other than rate
limiting that does not return None. -/
theorem disable_selling_non_none_failure :
    disable_selling (fun _ => none) ⟨5, 60⟩ [] 0 3 [SYS_PROGRAM_ID] "prog" "m" "w" 0
        (fun _ => [1, 2, 3]) =
      some (some "Invalid duration (1-7 days only)", [("w", ⟨5, 60, [0]⟩)],
            [Event.rateCheck "w"]) := by
  rfl

/-- C10 (corrected): besides `None` and the deep link,
`disable_selling` can return the rate-limit message or the invalid
duration message, and `revoke_authorities` can return the rate-limit
message; so a non-None return is not necessarily a deep-link URI. -/
theorem ops_return_value_taxonomy :
    (∀ (userCfg : PubKey → Option RateConfig) (defCfg : RateConfig)
        (mp : List (PubKey × RateLimit)) (now : Int) (max_retries : Nat)
        (wl : List PubKey) (smart_contract_pid mint_address wallet : PubKey) (days : Int)
        (ser : List Instruction → List Nat)
        (out : Option String × List (PubKey × RateLimit) × List Event),
      disable_selling userCfg defCfg mp now max_retries wl smart_contract_pid
          mint_address wallet days ser = some out →
      out.1 = none ∨ (∃ r : Int, out.1 = some (rate_limit_message r)) ∨
      out.1 = some "Invalid duration (1-7 days only)" ∨
      ∃ b64txn, out.1 =
        some ("https://phantom.app/ul/v1/?tx=" ++ b64txn ++ "&type=transaction")) ∧
    (∀ (userCfg : PubKey → Option RateConfig) (defCfg : RateConfig)
        (mp : List (PubKey × RateLimit)) (now : Int) (max_retries : Nat)
        (wl : List PubKey) (mint_address wallet : PubKey)
        (ser : List Instruction → List Nat)
        (out : Option String × List (PubKey × RateLimit) × List Event),
      revoke_authorities userCfg defCfg mp now max_retries wl mint_address wallet ser =
        some out →
      out.1 = none ∨ (∃ r : Int, out.1 = some (rate_limit_message r)) ∨
      ∃ b64txn, out.1 =
        some ("https://phantom.app/ul/v1/?tx=" ++ b64txn ++ "&type=transaction")) ∧
    (∀ (userCfg : PubKey → Option RateConfig) (defCfg : RateConfig)
        (mp : List (PubKey × RateLimit)) (now : Int) (max_retries : Nat)
        (wl : List PubKey) (smart_contract_pid mint_address wallet : PubKey) (days : Int)
        (ser : List Instruction → List Nat) (remaining : Option Int)
        (mp2 : List (PubKey × RateLimit)),
      check_rate_limit userCfg defCfg mp now wallet = some ((false, remaining), mp2) →
      (disable_selling userCfg defCfg mp now max_retries wl smart_contract_pid
          mint_address wallet days ser).map (fun o => o.1) =
        some (some (rate_limit_message (remaining.getD 0))) ∧
      (revoke_authorities userCfg defCfg mp now max_retries wl mint_address wallet ser).map
          (fun o => o.1) =
        some (some (rate_limit_message (remaining.getD 0)))) := by
  refine ⟨?_, ?_, ?_⟩
  rotate_right
  · intro userCfg defCfg mp now max_retries wl spid mint wallet days ser remaining mp2 h
    rw [disable_selling_rate_rejected userCfg defCfg mp now max_retries wl spid mint
      wallet days ser remaining mp2 h]
    rw [revoke_authorities_rate_rejected userCfg defCfg mp now max_retries wl mint
      wallet ser remaining mp2 h]
    exact ⟨rfl, rfl⟩
  · intro userCfg defCfg mp now max_retries wl spid mint wallet days ser out h
    rw [disable_selling] at h
    rcases hc : check_rate_limit userCfg defCfg mp now wallet with _ | ⟨⟨b, r⟩, mp2⟩
    · rw [hc] at h; simp at h
    · rw [hc] at h
      cases b
      · simp only [Option.some.injEq] at h
        subst h
        exact Or.inr (Or.inl ⟨r.getD 0, rfl⟩)
      · simp only [] at h
        by_cases hd : ¬(1 ≤ days ∧ days ≤ 7)
        · rw [if_pos hd] at h
          simp only [Option.some.injEq] at h
          subst h
          exact Or.inr (Or.inr (Or.inl rfl))
        · rw [if_neg hd] at h
          rcases hdl : (generate_deep_link_with_retry wl max_retries
              (compileTransaction (some wallet)
                [disable_selling_instruction spid mint wallet days]
                (ser [disable_selling_instruction spid mint wallet days]))).1 with _ | link <;>
            rw [hdl] at h <;> simp only [Option.some.injEq] at h <;> subst h
          · exact Or.inl rfl
          · refine Or.inr (Or.inr (Or.inr ?_))
            rw [generate_deep_link_with_retry] at hdl
            obtain ⟨b64txn, hb⟩ := retry_link_shape _ _ _ _ hdl
            exact ⟨b64txn, by rw [hb]⟩
  · intro userCfg defCfg mp now max_retries wl mint wallet ser out h
    rw [revoke_authorities] at h
    rcases hc : check_rate_limit userCfg defCfg mp now wallet with _ | ⟨⟨b, r⟩, mp2⟩
    · rw [hc] at h; simp at h
    · rw [hc] at h
      cases b
      · simp only [Option.some.injEq] at h
        subst h
        exact Or.inr (Or.inl ⟨r.getD 0, rfl⟩)
      · simp only [] at h
        rcases hdl : (generate_deep_link_with_retry wl max_retries
            (compileTransaction none
              [set_authority_ix mint wallet AuthorityType.mintTokens none TOKEN_PROGRAM_ID,
               set_authority_ix mint wallet AuthorityType.freezeAccount none TOKEN_PROGRAM_ID]
              (ser
                [set_authority_ix mint wallet AuthorityType.mintTokens none TOKEN_PROGRAM_ID,
                 set_authority_ix mint wallet AuthorityType.freezeAccount none
                   TOKEN_PROGRAM_ID]))).1 with _ | link <;>
          rw [hdl] at h <;> simp only [Option.some.injEq] at h <;> subst h
        · exact Or.inl rfl
        · refine Or.inr (Or.inr ?_)
          rw [generate_deep_link_with_retry] at hdl
          obtain ⟨b64txn, hb⟩ := retry_link_shape _ _ _ _ hdl
          exact ⟨b64txn, by rw [hb]⟩

/-- Witness for C10: the invalid-duration run returns its non-None
message, and a successful revocation returns a deep link. -/
theorem ops_return_value_taxonomy_witness :
    ((some "Invalid duration (1-7 days only)" : Option String) = none ∨
     (∃ r : Int, (some "Invalid duration (1-7 days only)" : Option String) =
       some (rate_limit_message r)) ∨
     (some "Invalid duration (1-7 days only)" : Option String) =
       some "Invalid duration (1-7 days only)" ∨
     ∃ b64txn, (some "Invalid duration (1-7 days only)" : Option String) =
       some ("https://phantom.app/ul/v1/?tx=" ++ b64txn ++ "&type=transaction")) ∧
    ((some "https://phantom.app/ul/v1/?tx=AQID&type=transaction" : Option String) = none ∨
     (∃ r : Int, (some "https://phantom.app/ul/v1/?tx=AQID&type=transaction" : Option String) =
       some (rate_limit_message r)) ∨
     ∃ b64txn, (some "https://phantom.app/ul/v1/?tx=AQID&type=transaction" : Option String) =
       some ("https://phantom.app/ul/v1/?tx=" ++ b64txn ++ "&type=transaction")) ∧
    ((disable_selling (fun _ => none) ⟨5, 60⟩ [("w", ⟨1, 60, [5]⟩)] 60 3 [] "p" "m" "w" 3
        (fun _ => [])).map (fun o => o.1) = some (some (rate_limit_message 5)) ∧
     (revoke_authorities (fun _ => none) ⟨5, 60⟩ [("w", ⟨1, 60, [5]⟩)] 60 3 [] "m" "w"
        (fun _ => [])).map (fun o => o.1) = some (some (rate_limit_message 5))) := by
  refine ⟨?_, ?_, ?_⟩
  · exact ops_return_value_taxonomy.1 (fun _ => none) ⟨5, 60⟩ [] 0 3 [SYS_PROGRAM_ID]
      "prog" "m" "w" 0 (fun _ => [1, 2, 3]) _ rfl
  · exact ops_return_value_taxonomy.2.1 (fun _ => none) ⟨5, 60⟩ [] 0 3 [TOKEN_PROGRAM_ID]
      "m" "w" (fun _ => [1, 2, 3]) _ rfl
  · exact ops_return_value_taxonomy.2.2 (fun _ => none) ⟨5, 60⟩ [("w", ⟨1, 60, [5]⟩)] 60 3
      [] "p" "m" "w" 3 (fun _ => []) (some 5) [("w", ⟨1, 60, [5]⟩)] rfl

end Claims

end JeffCrypto
